import Mathlib

/-!
Shallow embedding of the actor-resolution and signature-verification pipeline
of the go-ap/auth repository.

The repository snapshot contains two generations of the pipeline:

* `headers.go` and `middleware.go`: the `actorResolver` generation, whose
  resolver functions return pointer-style triples `(*Actor, *PublicKey, error)`
  and whose request entry point is `actorResolver.LoadActorFromRequest`;
* `unnamed/part_021` and `oauth_loader.go`: the `keyLoader` / `oauthLoader`
  generation built on a `config` value, whose verifiers return
  `(vocab.Actor, error)` pairs.

Go multiple-return values `(x, err)` are embedded as products with `Option`
components: a nil pointer is `none`, a nil error is `none`.  External
collaborators (the local storage, the HTTP client, the httpsig verifier and
the osin bearer-token parser) are embedded as oracle functions carried by the
model structures; every embedded function additionally returns the list of
collaborator calls it performed, so that claims about the absence of network
or storage access are statable.  Logging calls are dropped (they carry no
control flow), except that an argument expression of a log call that
dereferences a possibly-nil pointer is modelled as a panic outcome (`none`
result) where it occurs.
-/

namespace GoApAuth

/-- Model of `vocab.IRI` from go-ap/activitypub.  In Go an IRI is a string;
the embedding keeps it parsed into the components the code reads
(`u.Fragment`, host and path for `Contains`).  The all-empty value models
the empty IRI string, the only input on which `IRI.URL()` errors. -/
structure IRI where
  scheme : String
  host : String
  path : String
  fragment : String
deriving DecidableEq, Repr

def IRI.isEmpty (i : IRI) : Bool :=
  i.scheme == "" && i.host == "" && i.path == "" && i.fragment == ""

/-- Serialization of an IRI back to its string form (`iri.String()`). -/
def IRI.toStr (i : IRI) : String :=
  i.scheme ++ "://" ++ i.host ++ i.path ++
    (if i.fragment == "" then "" else "#" ++ i.fragment)

/-- Dropping the URL fragment (`u.Fragment = ""` followed by re-serialization). -/
def IRI.stripFragment (i : IRI) : IRI :=
  { i with fragment := "" }

/-- Whether a character list starts with another (helper for the substring
test below). -/
def charsStartWith : List Char → List Char → Bool
  | _, [] => true
  | [], _ :: _ => false
  | c :: cs, d :: ds => c == d && charsStartWith cs ds

/-- Whether a character list contains another as a contiguous run. -/
def charsContain : List Char → List Char → Bool
  | [], sub => sub.isEmpty
  | c :: rest, sub => charsStartWith (c :: rest) sub || charsContain rest sub

/-- Substring test, modelling Go `strings.Contains` (the empty string is
contained in everything). -/
def strContains (s sub : String) : Bool :=
  charsContain s.data sub.data

/-- Model of `vocab.IRI.Contains(what, checkScheme)` from go-ap/activitypub:
equal hosts and the path of `what` contained in the path of `i`; with
`checkScheme` the schemes must agree as well.  This is containment, not
equality: an entry with an empty path contains every resource of its host. -/
def IRI.contains (i what : IRI) (checkScheme : Bool) : Bool :=
  (if checkScheme then i.scheme == what.scheme else true) &&
    i.host == what.host && strContains i.path what.path

/-- Error model for github.com/go-ap/errors values as the embedded code
creates and inspects them. -/
inductive GoErr
  | newf (msg : String)
  | forbidden (msg : String)
  | notFound (msg : String)
  | badRequest (msg : String)
  | unauthorized (msg : String)
  | notModified (msg : String)
  | fromStatus (status : Nat) (msg : String)
  | annotate (err : GoErr) (msg : String)
  | wrapNotFound (err : GoErr) (msg : String)
  | wrapUnauthorized (err : Option GoErr) (msg : String) (challenge : String)
  | join (errs : List GoErr)
deriving Repr

/-- `errors.IsForbidden`: the error is a Forbidden error, looking through
annotation wrappers. -/
def GoErr.isForbidden : GoErr → Bool
  | .forbidden _ => true
  | .annotate e _ => e.isForbidden
  | _ => false

/-- `errors.IsNotModified`, looking through annotation wrappers. -/
def GoErr.isNotModified : GoErr → Bool
  | .notModified _ => true
  | .annotate e _ => e.isNotModified
  | _ => false

/-- `errors.Join` over a list of non-nil errors: nil when the list is empty,
otherwise an error holding all of them. -/
def joinErrs (errs : List GoErr) : Option GoErr :=
  if errs.isEmpty then none else some (.join errs)

/-- The kind of a parsed `crypto.PublicKey`.  `dsa` stands for any further
key type `x509.ParsePKIXPublicKey` can produce besides the three the
repository handles (DSA, X25519, ...). -/
inductive CryptoKind
  | rsa
  | ecdsa
  | ed25519
  | dsa
deriving DecidableEq, Repr

/-- A parsed cryptographic public key (`crypto.PublicKey`), as a kind plus
opaque key material. -/
structure CryptoPubKey where
  kind : CryptoKind
  material : Nat
deriving DecidableEq, Repr

/-- What a DER payload extracted from a PEM block parses as: a
SubjectPublicKeyInfo document (`pkix`, any key kind), a PKCS1 RSA document
(`pkcs1`), or neither. -/
inductive DerBlob
  | pkix (k : CryptoPubKey)
  | pkcs1 (material : Nat)
  | garbage
deriving DecidableEq, Repr

/-- The PEM text of a key (`PublicKeyPem` field): `none` models a string in
which `pem.Decode` finds no block (for example the empty string), `some b`
a string whose single PEM block carries the DER payload `b`. -/
abbrev Pem := Option DerBlob

/-- `pem.Decode` on the modelled PEM text. -/
def pemDecode (p : Pem) : Option DerBlob := p

/-- `x509.ParsePKIXPublicKey`: succeeds exactly on SubjectPublicKeyInfo
payloads, for keys of any kind.  Only the returned key pointer is modelled;
the callers in this repository test the pointer, not the error. -/
def parsePKIXPublicKey : DerBlob → Option CryptoPubKey
  | .pkix k => some k
  | _ => none

def msgPKCS1ParseFailed : String := "x509: failed to parse PKCS1 public key"

/-- `x509.ParsePKCS1PublicKey`: succeeds exactly on PKCS1 payloads and always
produces an RSA key. -/
def parsePKCS1PublicKey : DerBlob → Except GoErr CryptoPubKey
  | .pkcs1 m => .ok ⟨.rsa, m⟩
  | _ => .error (.newf msgPKCS1ParseFailed)

/-- Model of `vocab.PublicKey`. -/
structure PublicKey where
  id : IRI
  owner : IRI
  publicKeyPem : Pem
deriving DecidableEq, Repr

/-- Model of `vocab.Actor` restricted to the fields the embedded code reads:
`ID`, `Type`, `Name` and the embedded `PublicKey`. -/
structure Actor where
  id : IRI
  type : String
  name : String
  publicKey : PublicKey
deriving DecidableEq, Repr

def emptyIRI : IRI := ⟨"", "", "", ""⟩

/-- The zero value of `vocab.PublicKey` (empty IRIs, empty PEM string). -/
def zeroPublicKey : PublicKey :=
  { id := emptyIRI, owner := emptyIRI, publicKeyPem := none }

/-- `vocab.PublicNS`, the sentinel IRI of the anonymous actor. -/
def publicNS : IRI :=
  ⟨"https", "www.w3.org", "/ns/activitystreams", "Public"⟩

/-- `AnonymousActor` from middleware.go: the distinguished unauthenticated
actor. -/
def AnonymousActor : Actor :=
  { id := publicNS, type := "Actor", name := "Anonymous",
    publicKey := zeroPublicKey }

/-- Model of `vocab.Item`: nil, an actor, a non-actor object, or an item
collection. -/
inductive Item
  | nil
  | actor (a : Actor)
  | object (id : IRI)
  | collection (items : List Item)
deriving Repr

/-- `vocab.IsNil`. -/
def Item.isNil : Item → Bool
  | .nil => true
  | _ => false

def msgInvalidActorType : String := "invalid actor type"

/-- `vocab.ToActor`: coercion of an item to an actor pointer; nil pointer and
an invalid-type error when the item is not an actor. -/
def toActor : Item → Option Actor × Option GoErr
  | .actor a => (some a, none)
  | _ => (none, some (.newf msgInvalidActorType))

mutual
/-- `vocab.OnActor(it, fn)` specialized to the closures of this repository:
closures that only update captured state and return nil.  The state update is
`fn`; the accumulated state survives a mid-collection failure, matching the
mutation semantics of the Go closures.  Collections are traversed
per-element, non-actor elements (and nil) fail with an invalid-type error. -/
def onActorFold (fn : α → Actor → α) : Item → α → α × Option GoErr
  | .collection l, acc => onActorFoldList fn l acc
  | .actor a, acc => (fn acc a, none)
  | .nil, acc => (acc, some (.newf msgInvalidActorType))
  | .object _, acc => (acc, some (.newf msgInvalidActorType))

/-- Traversal of a collection's items by `onActorFold`, stopping at the first
failure. -/
def onActorFoldList (fn : α → Actor → α) : List Item → α → α × Option GoErr
  | [], acc => (acc, none)
  | it :: rest, acc =>
    match onActorFold fn it acc with
    | (acc2, some e) => (acc2, some e)
    | (acc2, none) => onActorFoldList fn rest acc2
end

/-- `compatibleVerifyAlgorithms` works on these httpsig algorithm constants. -/
inductive Algorithm
  | rsaSha256
  | rsaSha512
  | ecdsaSha512
  | ecdsaSha256
  | ed25519
deriving DecidableEq, Repr

def Algorithm.show : Algorithm → String
  | .rsaSha256 => "rsa-sha256"
  | .rsaSha512 => "rsa-sha512"
  | .ecdsaSha512 => "ecdsa-sha512"
  | .ecdsaSha256 => "ecdsa-sha256"
  | .ed25519 => "hs2019"

/-- `compatibleVerifyAlgorithms` from middleware.go: the ordered list of
signature algorithms attempted for a parsed public key; switch with no
default, so unmatched key kinds yield the empty list. -/
def compatibleVerifyAlgorithms (pubKey : CryptoPubKey) : List Algorithm :=
  match pubKey.kind with
  | .rsa => [.rsaSha256, .rsaSha512]
  | .ecdsa => [.ecdsaSha512, .ecdsaSha256]
  | .ed25519 => [.ed25519]
  | .dsa => []

def msgDecodePEMFailed : String := "unable to decode PEM payload for public key"

def msgInvalidPublicKeyType : String := "invalid public key type %T"

/-- `toCryptoPublicKey` from unnamed/part_021: PEM decode, then PKIX parse
(returned directly when it yields a key), then PKCS1 parse with a key-type
switch on its result. -/
def toCryptoPublicKey (key : PublicKey) : Except GoErr CryptoPubKey :=
  match pemDecode key.publicKeyPem with
  | none => .error (.newf msgDecodePEMFailed)
  | some blob =>
    match parsePKIXPublicKey blob with
    | some pk => .ok pk
    | none =>
      match parsePKCS1PublicKey blob with
      | .error e => .error e
      | .ok pk =>
        match pk.kind with
        | .rsa => .ok pk
        | .ecdsa => .ok pk
        | .ed25519 => .ok pk
        | .dsa => .error (.newf msgInvalidPublicKeyType)

/-- One call to an external collaborator, recorded in the traces the embedded
functions return: a local-storage `Load`, an OAuth2 `LoadAccess`, a client
HTTP `CtxGet`, a client `CtxLoadIRI`, or one httpsig `Verify` attempt. -/
inductive CallEvent
  | load (iri : IRI)
  | loadAccess (token : String)
  | ctxGet (url : String)
  | ctxLoadIRI (iri : IRI)
  | sigVerify (alg : Algorithm)
deriving DecidableEq, Repr

/-- Whether an event is a call on the remote HTTP client. -/
def CallEvent.isClientCall : CallEvent → Bool
  | .ctxGet _ => true
  | .ctxLoadIRI _ => true
  | _ => false

/-- Number of HTTP GET fetches (`CtxGet` calls) in a trace. -/
def ctxGetCount (t : List CallEvent) : Nat :=
  (t.filter fun e => match e with | .ctxGet _ => true | _ => false).length

/-- The dynamic type of the opaque `UserData` blob, as `assertToBytes`
distinguishes them: a string, a byte slice, a `json.RawMessage`, a
`fmt.Stringer`, or anything else.  The first four carry the actor IRI the
bytes spell. -/
inductive UserData
  | str (iri : IRI)
  | bytes (iri : IRI)
  | raw (iri : IRI)
  | stringer (iri : IRI)
  | other
deriving DecidableEq, Repr

/-- The `osin.AccessData` record returned by `LoadAccess`; only the
`UserData` field is read by this repository. -/
structure AccessData where
  userData : Option UserData
deriving DecidableEq, Repr

def msgCouldNotAssert : String := "Could not assert to string"

/-- `assertToBytes` from middleware.go on a non-nil blob: strings, byte
slices, raw JSON and Stringers convert, anything else is an assertion
error.  (The nil case of the Go function is unreachable here: every caller
checks `UserData != nil` first.) -/
def assertToBytes : UserData → Except GoErr IRI
  | .str i => .ok i
  | .bytes i => .ok i
  | .raw i => .ok i
  | .stringer i => .ok i
  | .other => .error (.newf msgCouldNotAssert)

/-- What an HTTP response body unmarshals as under `jsonld.Unmarshal`: an
Actor document, a bare PublicKey document (which fails to unmarshal as an
Actor), or neither. -/
inductive Body
  | actorDoc (a : Actor)
  | keyDoc (k : PublicKey)
  | garbage
deriving Repr

/-- An `*http.Response` as LoadRemoteKey reads it: status code, body, and
the outcome of `io.ReadAll` on the body. -/
structure HResp where
  statusCode : Nat
  readErr : Option GoErr
  body : Body
deriving Repr

/-- Oracle for a local storage backend: `Load` from the `readStore`
interface, plus `LoadAccess` from the `oauthStore` interface together with a
flag telling whether the dynamic type actually implements `oauthStore` (the
code probes this with a type assertion). -/
structure Store where
  load : IRI → Item × Option GoErr
  supportsLoadAccess : Bool
  loadAccess : String → Option AccessData × Option GoErr

/-- Oracle for the remote HTTP client (`Client` interface of headers.go):
`CtxGet` returning a response pointer and error, `CtxLoadIRI` returning an
item and error.  Timeout contexts are dropped: the oracle already fixes each
call's outcome. -/
structure Client where
  ctxGet : String → Option HResp × Option GoErr
  ctxLoadIRI : IRI → Item × Option GoErr

def msgUnableToLoadIRI : String := "unable to load iri %s"

def msgUnableToFetchRemoteKey : String := "unable to fetch remote key"

def msgJsonldUnmarshalFailed : String := "jsonld: cannot unmarshal body"

/-- The pointer-style resolver result of the headers.go generation:
`(*vocab.Actor, *vocab.PublicKey, error)`. -/
abbrev PtrResult := Option Actor × Option PublicKey × Option GoErr

/-- `LoadRemoteKey` (the body of `actorResolver.LoadRemoteKey`,
headers.go:161-206, written over the client it uses): GET the IRI, accept
status 200/410/304, try the body as an Actor document and fall back to a
bare PublicKey document whose `Owner` is dereferenced with a second client
call. -/
def LoadRemoteKey (c : Client) (iri : IRI) : PtrResult × List CallEvent :=
  match c.ctxGet iri.toStr with
  | (_, some e) => ((none, none, some e), [.ctxGet iri.toStr])
  | (none, none) =>
    ((none, none, some (.notFound msgUnableToLoadIRI)), [.ctxGet iri.toStr])
  | (some resp, none) =>
    match resp.readErr with
    | some e => ((none, none, some e), [.ctxGet iri.toStr])
    | none =>
      if resp.statusCode == 200 || resp.statusCode == 410 ||
          resp.statusCode == 304 then
        match resp.body with
        | .actorDoc act =>
          ((some act, some act.publicKey, none), [.ctxGet iri.toStr])
        | .keyDoc key =>
          match c.ctxLoadIRI key.owner with
          | (_, some e) =>
            ((none, some key, some e),
              [.ctxGet iri.toStr, .ctxLoadIRI key.owner])
          | (it, none) =>
            match toActor it with
            | (_, some e) =>
              ((none, some key, some e),
                [.ctxGet iri.toStr, .ctxLoadIRI key.owner])
            | (act, none) =>
              ((act, some key, none),
                [.ctxGet iri.toStr, .ctxLoadIRI key.owner])
        | .garbage =>
          ((none, none, some (.newf msgJsonldUnmarshalFailed)),
            [.ctxGet iri.toStr])
      else
        ((none, none,
            some (.fromStatus resp.statusCode msgUnableToFetchRemoteKey)),
          [.ctxGet iri.toStr])

/-- `actorResolver` from headers.go: configuration bound at construction.
The `iriIsLocal` predicate and logger are dropped (never read by the
embedded functions); `st` and `c` are `none` when the interface fields are
nil. -/
structure actorResolver where
  baseURL : String
  ignore : List IRI
  c : Option Client
  st : Option Store

def msgActorBlocked : String := "actor is blocked"

def msgNilStorage : String := "nil storage"

def msgNilClient : String := "nil client"

def msgInvalidURLToLoad : String := "invalid URL to load"

def msgEmptyIRI : String := "empty IRI"

/-- `actorResolver.iriIsIgnored` (headers.go:67-74). -/
def actorResolver.iriIsIgnored (a : actorResolver) (iri : IRI) : Bool :=
  a.ignore.any fun i => iri.contains i false

/-- `actorResolver.loadFromStorage` (headers.go:76-105): strip the URL
fragment, load from local storage, coerce to an actor, and return the
address of the actor's embedded `PublicKey` field. -/
def actorResolver.loadFromStorage (a : actorResolver) (iri : IRI) :
    PtrResult × List CallEvent :=
  match a.st with
  | none => ((some AnonymousActor, none, some (.newf msgNilStorage)), [])
  | some st =>
    if iri.isEmpty then
      ((some AnonymousActor, none,
          some (.annotate (.newf msgEmptyIRI) msgInvalidURLToLoad)), [])
    else
      let iri2 := if iri.fragment != "" then iri.stripFragment else iri
      match st.load iri2 with
      | (_, some e) => ((some AnonymousActor, none, some e), [.load iri2])
      | (it, none) =>
        match toActor it with
        | (act, some e) => ((act, none, some e), [.load iri2])
        | (some act, none) =>
          ((some act, some act.publicKey, none), [.load iri2])
        | (none, none) => ((none, none, none), [.load iri2])

/-- `actorResolver.LoadActorFromKeyIRI` (headers.go:111-156): nothing
configured short-circuits, then the ignore list, then local storage, then
the remote key fetch, then the IRI-as-actor fallback. -/
def actorResolver.LoadActorFromKeyIRI (a : actorResolver) (iri : IRI) :
    PtrResult × List CallEvent :=
  if a.st.isNone && a.c.isNone then ((some AnonymousActor, none, none), [])
  else if a.iriIsIgnored iri then
    ((some AnonymousActor, none, some (.forbidden msgActorBlocked)), [])
  else
    match a.loadFromStorage iri with
    | ((act, some key, none), t1) => ((act, some key, none), t1)
    | ((_, _, _), t1) =>
      match a.c with
      | none => ((some AnonymousActor, none, some (.newf msgNilClient)), t1)
      | some c =>
        match LoadRemoteKey c iri with
        | ((act2, some key2, none), t2) =>
          ((act2, some key2, none), t1 ++ t2)
        | ((act2, key2, _), t2) =>
          match c.ctxLoadIRI iri with
          | (_, some e) =>
            ((some AnonymousActor, none, some e),
              t1 ++ t2 ++ [.ctxLoadIRI iri])
          | (it, none) =>
            let (acc, onErr) :=
              onActorFold (fun _ x => (some x, some x.publicKey)) it
                (act2, key2)
            ((acc.1, acc.2, onErr), t1 ++ t2 ++ [.ctxLoadIRI iri])

/-- The value-style resolver result of the unnamed/part_021 generation:
`(vocab.Actor, *vocab.PublicKey, error)`. -/
abbrev ValResult := Actor × Option PublicKey × Option GoErr

/-- Modelled from the spec: the package-level `LoadRemoteKey(ctx, client,
iri)` helper that unnamed/part_021 calls is not under src (only its caller
is); spec section 4.2 describes it as `FetchKeyOrActor`, whose steps match
the in-src method `actorResolver.LoadRemoteKey`.  It is embedded as that
method's body with the nil actor pointer of the failure branches rendered as
`AnonymousActor` (the value convention of the part_021 generation; the spec
leaves the failure-case actor unspecified and every caller discards it). -/
def LoadRemoteKeyV (c : Client) (iri : IRI) : ValResult × List CallEvent :=
  match LoadRemoteKey c iri with
  | ((act, key, err), t) => ((act.getD AnonymousActor, key, err), t)

def msgInvalidStorageForKeyLoader : String := "invalid storage for key loader"

/-- `keyLoader` from unnamed/part_021: the `config` fields it reads. -/
structure keyLoader where
  baseURL : String
  ignore : List IRI
  c : Option Client
  st : Option Store

/-- `keyLoader.iriIsIgnored` (unnamed/part_021:194-201). -/
def keyLoader.iriIsIgnored (k : keyLoader) (iri : IRI) : Bool :=
  k.ignore.any fun i => iri.contains i false

/-- `keyLoader.loadLocalKey` (unnamed/part_021:203-235): strip the URL
fragment, load from local storage, and read the actor and the address of its
embedded `PublicKey` field through `vocab.OnActor`. -/
def keyLoader.loadLocalKey (k : keyLoader) (iri : IRI) :
    ValResult × List CallEvent :=
  match k.st with
  | none =>
    ((AnonymousActor, none, some (.newf msgInvalidStorageForKeyLoader)), [])
  | some st =>
    if iri.isEmpty then
      ((AnonymousActor, none,
          some (.annotate (.newf msgEmptyIRI) msgInvalidURLToLoad)), [])
    else
      let iri2 := if iri.fragment != "" then iri.stripFragment else iri
      match st.load iri2 with
      | (_, some e) => ((AnonymousActor, none, some e), [.load iri2])
      | (it, none) =>
        match onActorFold (fun _ x => (x, some x.publicKey)) it
            (AnonymousActor, none) with
        | ((act, key), onErr) => ((act, key, onErr), [.load iri2])

/-- `keyLoader.loadRemoteKey` (unnamed/part_021:157-186): try the IRI as a
remote public key, then fall back to loading it as an actor IRI.  The
trailing log call dereferences the key pointer, so a fallback that leaves
the key nil panics; a panic is the `none` result. -/
def keyLoader.loadRemoteKey (k : keyLoader) (iri : IRI) :
    Option ValResult × List CallEvent :=
  match k.c with
  | none => (some (AnonymousActor, none, some (.newf msgNilClient)), [])
  | some c =>
    match LoadRemoteKeyV c iri with
    | ((act, some key, none), t) => (some (act, some key, none), t)
    | ((act, key, _), t) =>
      match c.ctxLoadIRI iri with
      | (_, some e) =>
        (some (AnonymousActor, none, some e), t ++ [.ctxLoadIRI iri])
      | (it, none) =>
        match onActorFold (fun _ x => (x, some x.publicKey)) it (act, key) with
        | ((act2, key2), onErr) =>
          match key2 with
          | none => (none, t ++ [.ctxLoadIRI iri])
          | some kk => (some (act2, some kk, onErr), t ++ [.ctxLoadIRI iri])

/-- `keyLoader.LoadActorFromKeyIRI` (unnamed/part_021:136-155): nothing
configured short-circuits, then the ignore list, then local storage, then
the remote path. -/
def keyLoader.LoadActorFromKeyIRI (k : keyLoader) (iri : IRI) :
    Option ValResult × List CallEvent :=
  if k.st.isNone && k.c.isNone then (some (AnonymousActor, none, none), [])
  else if k.iriIsIgnored iri then
    (some (AnonymousActor, none, some (.forbidden msgActorBlocked)), [])
  else
    match k.loadLocalKey iri with
    | ((act, some key, none), t) => (some (act, some key, none), t)
    | ((_, _, _), t) =>
      match k.loadRemoteKey iri with
      | (r, t2) => (r, t ++ t2)

/-- The part of an httpsig verifier this repository reads: `KeyId()` (a
string the code casts to an IRI) and the outcome of `Verify(pk, algo)` on
the underlying request, `none` meaning the signature checks out under that
key and algorithm. -/
structure SigInfo where
  keyId : IRI
  verify : CryptoPubKey → Algorithm → Option GoErr

/-- An `*http.Request` as the authenticators read it: the header map
(`none` models a nil `r.Header`), the outcome of `httpsig.NewVerifier(r)`,
and the outcome of `osin.CheckBearerAuth(r)`. -/
structure Request where
  headers : Option (List (String × String))
  sigParse : Except GoErr SigInfo
  bearer : Option String

/-- `http.Header.Get`: first value for the (canonical) key, or the empty
string. -/
def headerGet (hs : List (String × String)) (k : String) : String :=
  match hs.find? (fun p => p.1 == k) with
  | some p => p.2
  | none => ""

def msgInvalidPublicKey : String := "invalid public key"

def msgInitVerifierFailed : String :=
  "unable to initialize HTTP Signatures verifier"

def msgUnableLoadKey : String :=
  "unable to load public key based on signature"

def msgUnableVerifyAny : String :=
  "unable to verify HTTP Signature with any of the attempted algorithms"

def failedAlgMsg (a : Algorithm) : String := "failed " ++ a.show

/-- The per-algorithm loop of `verifyFn` (unnamed/part_021:100-108): try
each compatible algorithm in order, stop at the first success, otherwise
collect each failure annotated with its algorithm and join them all. -/
def verifyAlgs (v : SigInfo) (pk : CryptoPubKey) :
    List Algorithm → List GoErr → Option GoErr × List CallEvent
  | [], errs => (joinErrs errs, [])
  | a :: rest, errs =>
    match v.verify pk a with
    | none => (none, [.sigVerify a])
    | some e =>
      match verifyAlgs v pk rest (errs ++ [.annotate e (failedAlgMsg a)]) with
      | (r, t) => (r, .sigVerify a :: t)

/-- `verifyFn` from `keyLoader.Verify` (unnamed/part_021:94-109): decode the
PEM key and run the per-algorithm loop. -/
def keyLoader.verifyFn (v : SigInfo) (pubKey : PublicKey) :
    Option GoErr × List CallEvent :=
  match toCryptoPublicKey pubKey with
  | .error e => (some (.annotate e msgInvalidPublicKey), [])
  | .ok pk => verifyAlgs v pk (compatibleVerifyAlgorithms pk) []

/-- `keyLoader.Verify` (unnamed/part_021:89-128): verify with the locally
stored copy of the key when one exists, else fetch a fresh remote copy and
verify once more; a remote-path panic propagates as `none`. -/
def keyLoader.Verify (k : keyLoader) (r : Request) :
    Option (Actor × Option GoErr) × List CallEvent :=
  match r.sigParse with
  | .error e =>
    (some (AnonymousActor, some (.annotate e msgInitVerifierFailed)), [])
  | .ok v =>
    match k.loadLocalKey v.keyId with
    | ((actor1, key1, _), t1) =>
      let localTry := key1.map fun kk => keyLoader.verifyFn v kk
      match localTry with
      | some (none, tv) => (some (actor1, none), t1 ++ tv)
      | _ =>
        let tLocal := t1 ++ (match localTry with
          | some (_, tv) => tv
          | none => [])
        match k.loadRemoteKey v.keyId with
        | (none, t2) => (none, tLocal ++ t2)
        | (some (_, _, some e), t2) =>
          (some (AnonymousActor, some (.annotate e msgUnableLoadKey)),
            tLocal ++ t2)
        | (some (act2, key2, none), t2) =>
          match key2 with
          | none => (none, tLocal ++ t2)
          | some kk =>
            match keyLoader.verifyFn v kk with
            | (none, tv2) => (some (act2, none), tLocal ++ t2 ++ tv2)
            | (some e, tv2) =>
              (some (AnonymousActor, some (.annotate e msgUnableVerifyAny)),
                tLocal ++ t2 ++ tv2)

def msgNoActorMatchingKey : String :=
  "unable to find actor matching key id %s"

def msgInvalidKeyLoaded : String := "invalid key loaded %s for actor %s"

def msgPEMBlockParseFailed : String :=
  "failed to parse PEM block containing the public key"

def msgPKIXParseFailed : String := "x509: failed to parse public key"

/-- The tail of `keyLoader.GetKey` from middleware.go (lines 63-79), after
the error of the key-IRI resolution has been dispatched: nil-actor check,
`k.acc` update, nil-key check, PEM block decode, PKIX parse.  (A non-nil
`*vocab.Actor` always passes the `vocab.IsObject` check, so that branch
cannot fire.) -/
def keyLoaderGetKeyRest (act : Option Actor) (key : Option PublicKey)
    (acc : Actor) (t : List CallEvent) :
    (Except GoErr CryptoPubKey × Actor) × List CallEvent :=
  match act with
  | none => ((.error (.notFound msgNoActorMatchingKey), acc), t)
  | some a2 =>
    match key with
    | none => ((.error (.notFound msgInvalidKeyLoaded), a2), t)
    | some kk =>
      match pemDecode kk.publicKeyPem with
      | none => ((.error (.newf msgPEMBlockParseFailed), a2), t)
      | some blob =>
        match parsePKIXPublicKey blob with
        | some pk => ((.ok pk, a2), t)
        | none => ((.error (.newf msgPKIXParseFailed), a2), t)

/-- `keyLoader.GetKey` from middleware.go (lines 46-80; the middleware-era
`keyLoader` is a different struct from the part_021 one, wired with
`loadActorFromKeyFn = actorResolver.LoadActorFromKeyIRI` by
`LoadActorFromRequest`).  The `acc` parameter threads the mutable `k.acc`
actor pointer. -/
def keyLoaderGetKey (a : actorResolver) (acc : Actor) (id : IRI) :
    (Except GoErr CryptoPubKey × Actor) × List CallEvent :=
  if id.isEmpty then ((.error (.newf msgEmptyIRI), acc), [])
  else
    match a.LoadActorFromKeyIRI id with
    | ((act, key, err), t) =>
      match err with
      | some e =>
        if !e.isNotModified then
          (if e.isForbidden then ((.error e, acc), t)
           else ((.error (.wrapNotFound e msgNoActorMatchingKey), acc), t))
        else keyLoaderGetKeyRest act key acc t
      | none => keyLoaderGetKeyRest act key acc t

def msgUnableVerifyAnyAlgos : String :=
  "unable to verify HTTP Signature with any of the attempted algorithms: %v"

/-- The per-algorithm loop of `verifyHTTPSignature` (middleware.go:173-178):
stop at first success; the middleware generation does not collect the
individual failures. -/
def mwVerifyLoop (v : SigInfo) (pk : CryptoPubKey) :
    List Algorithm → Option GoErr × List CallEvent
  | [] => (some (.newf msgUnableVerifyAnyAlgos), [])
  | a :: rest =>
    match v.verify pk a with
    | none => (none, [.sigVerify a])
    | some _ =>
      match mwVerifyLoop v pk rest with
      | (r, t) => (r, .sigVerify a :: t)

/-- `verifyHTTPSignature` (middleware.go:163-179) over the resolver whose
`LoadActorFromKeyIRI` the key getter wraps; `acc` threads the getter's
actor pointer. -/
def verifyHTTPSignature (a : actorResolver) (r : Request) (acc : Actor) :
    (Option GoErr × Actor) × List CallEvent :=
  match r.sigParse with
  | .error e => ((some (.annotate e msgInitVerifierFailed), acc), [])
  | .ok v =>
    match keyLoaderGetKey a acc v.keyId with
    | ((.error e, acc2), t) =>
      ((some (.annotate e msgUnableLoadKey), acc2), t)
    | ((.ok pk, acc2), t) =>
      match mwVerifyLoop v pk (compatibleVerifyAlgorithms pk) with
      | (res, t2) => ((res, acc2), t ++ t2)

def noChallenge : String := ""

def spaceStr : String := " "

def hdrSignature : String := "Signature"

def hdrAuthorization : String := "Authorization"

def msgNoBearerToken : String := "could not load bearer token from request"

def msgUnableLoadBearer : String := "unable to load bearer"

def msgUnableLoadFromBearer : String := "unable to load from bearer"

def msgUnableValidateBearer : String :=
  "Unable to validate actor from Bearer token"

/-- `firstOrItem` (middleware.go:93-104): the first element of a collection
(nil for an empty one), the item itself otherwise. -/
def firstOrItem : Item → Except GoErr Item
  | .collection l => .ok (l.headD .nil)
  | it => .ok it

/-- `oauthLoader.Verify` from middleware.go (lines 127-161), the loader that
headers.go's `LoadActorFromRequest` dispatches Bearer requests to; returns
`(error, challenge)` and threads the `k.acc` actor pointer. -/
def oauthLoaderVerify (st : Store) (r : Request) (acc : Actor) :
    ((Option GoErr × String) × Actor) × List CallEvent :=
  match r.bearer with
  | none => (((some (.badRequest msgNoBearerToken), ""), acc), [])
  | some tok =>
    match st.loadAccess tok with
    | (_, some e) => (((some e, ""), acc), [.loadAccess tok])
    | (none, none) =>
      (((some (.notFound msgUnableLoadBearer), ""), acc), [.loadAccess tok])
    | (some dat, none) =>
      match dat.userData with
      | none =>
        (((some (.notFound msgUnableLoadBearer), ""), acc), [.loadAccess tok])
      | some ud =>
        match assertToBytes ud with
        | .error _ =>
          (((some (.unauthorized msgUnableLoadFromBearer), ""), acc),
            [.loadAccess tok])
        | .ok iri =>
          match st.load iri with
          | (_, some e) =>
            (((some (.wrapUnauthorized (some e) msgUnableValidateBearer noChallenge),
                ""), acc), [.loadAccess tok, .load iri])
          | (it, none) =>
            if it.isNil then
              (((some (.wrapUnauthorized none msgUnableValidateBearer noChallenge),
                  ""), acc), [.loadAccess tok, .load iri])
            else
              match firstOrItem it with
              | .error e =>
                (((some (.wrapUnauthorized (some e) msgUnableValidateBearer
                    noChallenge), ""), acc), [.loadAccess tok, .load iri])
              | .ok it2 =>
                match onActorFold (fun _ x => x) it2 acc with
                | (acc2, some e) =>
                  (((some (.wrapUnauthorized (some e) msgUnableValidateBearer
                      noChallenge), ""), acc2), [.loadAccess tok, .load iri])
                | (acc2, none) =>
                  (((none, ""), acc2), [.loadAccess tok, .load iri])

/-- `oauthLoader` from oauth_loader.go: the `config` fields its `Verify`
reads.  (The Go code dereferences `k.st` unconditionally, so the embedded
struct carries the storage directly.) -/
structure oauthLoaderV where
  st : Store

/-- `oauthLoader.Verify` from oauth_loader.go (lines 23-58), the
value-returning generation of the bearer verifier. -/
def oauthLoaderV.Verify (k : oauthLoaderV) (r : Request) :
    (Actor × Option GoErr) × List CallEvent :=
  match r.bearer with
  | none => ((AnonymousActor, some (.badRequest msgNoBearerToken)), [])
  | some tok =>
    match k.st.loadAccess tok with
    | (_, some e) => ((AnonymousActor, some e), [.loadAccess tok])
    | (none, none) =>
      ((AnonymousActor, some (.notFound msgUnableLoadBearer)),
        [.loadAccess tok])
    | (some dat, none) =>
      match dat.userData with
      | none =>
        ((AnonymousActor, some (.notFound msgUnableLoadBearer)),
          [.loadAccess tok])
      | some ud =>
        match assertToBytes ud with
        | .error _ =>
          ((AnonymousActor, some (.unauthorized msgUnableLoadFromBearer)),
            [.loadAccess tok])
        | .ok iri =>
          match k.st.load iri with
          | (_, some e) =>
            ((AnonymousActor,
                some (.wrapUnauthorized (some e) msgUnableValidateBearer noChallenge)),
              [.loadAccess tok, .load iri])
          | (it, none) =>
            if it.isNil then
              ((AnonymousActor,
                  some (.wrapUnauthorized none msgUnableValidateBearer noChallenge)),
                [.loadAccess tok, .load iri])
            else
              match firstOrItem it with
              | .error e =>
                ((AnonymousActor,
                    some (.wrapUnauthorized (some e) msgUnableValidateBearer
                      noChallenge)), [.loadAccess tok, .load iri])
              | .ok it2 =>
                match onActorFold (fun _ x => x) it2 AnonymousActor with
                | (act2, some e) =>
                  ((act2,
                      some (.wrapUnauthorized (some e) msgUnableValidateBearer
                        "")), [.loadAccess tok, .load iri])
                | (act2, none) => ((act2, none), [.loadAccess tok, .load iri])

/-- Splitting a character list at its first space (helper modelling
`strings.SplitN(s, " ", 2)`). -/
def splitAtSpace : List Char → List Char × List Char
  | [] => ([], [])
  | c :: rest =>
    if c == ' ' then ([], c :: rest)
    else
      match splitAtSpace rest with
      | (a, b) => (c :: a, b)

/-- `getAuthorization` (middleware.go:194-200): `strings.SplitN(hdr, " ", 2)`;
no space means the whole header is the scheme token, otherwise the token
before the first space and the remainder after it. -/
def getAuthorization (hdr : String) : String × String :=
  match splitAtSpace hdr.data with
  | (_, []) => (hdr, "")
  | (p0, _ :: rest) => (⟨p0⟩, ⟨rest⟩)

def msgUnauthorized : String := "Unauthorized"

/-- The `case "Signature"` arm plus the error-wrapping tail of
`actorResolver.LoadActorFromRequest` (headers.go:252-291). -/
def actorResolver.dispatchSignature (a : actorResolver) (req : Request) :
    (Actor × Option GoErr) × List CallEvent :=
  match verifyHTTPSignature a req AnonymousActor with
  | ((none, accF), t) => ((accF, none), t)
  | ((some e, _), t) =>
    ((AnonymousActor, some (.wrapUnauthorized (some e) msgUnauthorized noChallenge)), t)

/-- The `case "Bearer"` arm plus the error-wrapping tail of
`actorResolver.LoadActorFromRequest` (headers.go:241-291): the storage must
pass the `oauthStore` type assertion, otherwise nothing runs and the
anonymous actor is returned without error. -/
def actorResolver.dispatchBearer (a : actorResolver) (req : Request) :
    (Actor × Option GoErr) × List CallEvent :=
  match a.st with
  | some st =>
    if st.supportsLoadAccess then
      match oauthLoaderVerify st req AnonymousActor with
      | (((none, _), accF), t) => ((accF, none), t)
      | (((some e, chal), _), t) =>
        ((AnonymousActor,
            some (.wrapUnauthorized (some e) msgUnauthorized chal)), t)
    else ((AnonymousActor, none), [])
  | none => ((AnonymousActor, none), [])

/-- `actorResolver.LoadActorFromRequest` (headers.go:213-291): nil request
or headers mean anonymous without error; a non-empty `Signature` header
dispatches to the HTTP-Signature verifier; otherwise the `Authorization`
header's scheme token picks the verifier, with unrecognized schemes (and no
credentials at all) again anonymous without error. -/
def actorResolver.LoadActorFromRequest (a : actorResolver)
    (r : Option Request) : (Actor × Option GoErr) × List CallEvent :=
  match r with
  | none => ((AnonymousActor, none), [])
  | some req =>
    match req.headers with
    | none => ((AnonymousActor, none), [])
    | some hs =>
      if headerGet hs hdrSignature != "" then a.dispatchSignature req
      else
        let authH := headerGet hs hdrAuthorization
        if authH != "" then
          let ta := getAuthorization authH
          if ta.1 == "Bearer" then a.dispatchBearer req
          else if ta.1 == "Signature" then a.dispatchSignature req
          else ((AnonymousActor, none), [])
        else ((AnonymousActor, none), [])

/-!  Helper lemmas shared by the claim theorems. -/

/-- The fragment-stripping conditional of `loadFromStorage` / `loadLocalKey`
always computes `IRI.stripFragment`. -/
theorem stripFragment_if (i : IRI) :
    (if i.fragment != "" then i.stripFragment else i) = i.stripFragment := by
  obtain ⟨s, h, p, f⟩ := i
  by_cases hf : f = ""
  · subst hf
    simp [IRI.stripFragment]
  · simp [hf, IRI.stripFragment]

/-- The same conditional in the `ite`-normal form `simp` produces. -/
theorem stripFragment_ite (i : IRI) :
    (if i.fragment = "" then i else i.stripFragment) = i.stripFragment := by
  by_cases hf : i.fragment = ""
  · obtain ⟨s, h, p, f⟩ := i
    simp only at hf
    subst hf
    simp [IRI.stripFragment]
  · simp [hf]

/-!  C9. -/

/-- C9: `compatibleVerifyAlgorithms` is a total deterministic function of
the key kind: RSA keys yield exactly [RSA-SHA256, RSA-SHA512], ECDSA keys
exactly [ECDSA-SHA512, ECDSA-SHA256], Ed25519 keys exactly [ED25519], and
any other key kind the empty list; with such a key,
`verifyHTTPSignature` fails deterministically without attempting any
algorithm (its trace is exactly the key-resolution trace, with no
`sigVerify` event appended). -/
theorem c9_compatible_algorithms_total :
    (∀ m : Nat, compatibleVerifyAlgorithms ⟨.rsa, m⟩ =
      [.rsaSha256, .rsaSha512]) ∧
    (∀ m : Nat, compatibleVerifyAlgorithms ⟨.ecdsa, m⟩ =
      [.ecdsaSha512, .ecdsaSha256]) ∧
    (∀ m : Nat, compatibleVerifyAlgorithms ⟨.ed25519, m⟩ = [.ed25519]) ∧
    (∀ pk : CryptoPubKey, pk.kind = .dsa → compatibleVerifyAlgorithms pk = []) ∧
    (∀ (a : actorResolver) (r : Request) (acc acc2 : Actor) (v : SigInfo)
        (pk : CryptoPubKey) (t : List CallEvent),
      r.sigParse = .ok v →
      keyLoaderGetKey a acc v.keyId = ((.ok pk, acc2), t) →
      compatibleVerifyAlgorithms pk = [] →
      verifyHTTPSignature a r acc =
        ((some (.newf msgUnableVerifyAnyAlgos), acc2), t)) := by
  refine ⟨fun m => rfl, fun m => rfl, fun m => rfl, ?_, ?_⟩
  · intro pk h
    simp [compatibleVerifyAlgorithms, h]
  · intro a r acc acc2 v pk t hr hk halgs
    simp [verifyHTTPSignature, hr, hk, halgs, mwVerifyLoop]

def iri9 : IRI := ⟨"https", "example.com", "/dsa", ""⟩

def key9 : PublicKey := ⟨iri9, iri9, some (.pkix ⟨.dsa, 5⟩)⟩

def act9 : Actor := ⟨iri9, "Person", "dsa", key9⟩

def store9 : Store :=
  { load := fun _ => (.actor act9, none)
  , supportsLoadAccess := false
  , loadAccess := fun _ => (none, none) }

def resolver9 : actorResolver :=
  { baseURL := "", ignore := [], c := none, st := some store9 }

def sig9 : SigInfo := { keyId := iri9, verify := fun _ _ => none }

def req9 : Request :=
  { headers := some [], sigParse := .ok sig9, bearer := none }

/-- Witness for C9: a stored actor whose key parses as a DSA key makes
`verifyHTTPSignature` fail with no algorithm attempted. -/
theorem c9_compatible_algorithms_total_witness :
    compatibleVerifyAlgorithms ⟨.dsa, 5⟩ = [] ∧
    verifyHTTPSignature resolver9 req9 AnonymousActor =
      ((some (.newf msgUnableVerifyAnyAlgos), act9), [.load iri9]) := by
  refine ⟨c9_compatible_algorithms_total.2.2.2.1 ⟨.dsa, 5⟩ rfl, ?_⟩
  exact c9_compatible_algorithms_total.2.2.2.2 resolver9 req9 AnonymousActor
    act9 sig9 ⟨.dsa, 5⟩ [.load iri9] rfl rfl rfl

/-!  C8. -/

/-- C8 counterexample: a PEM block whose DER payload is a PKIX document for
a key kind other than RSA/ECDSA/Ed25519 (here the stand-in `dsa` kind, which
has no compatible verify algorithm) is returned by `toCryptoPublicKey`
without any error: the claimed UnsupportedKeyType failure does not occur,
because the key-type switch sits only on the PKCS1 parse path. -/
theorem c8_counterexample :
    toCryptoPublicKey ⟨emptyIRI, emptyIRI, some (.pkix ⟨.dsa, 0⟩)⟩ =
      .ok ⟨.dsa, 0⟩ ∧
    compatibleVerifyAlgorithms ⟨.dsa, 0⟩ = [] := ⟨rfl, rfl⟩

/-- C8 as amended: decoding fails when the PEM block cannot be decoded or
when neither PKIX nor PKCS1 DER parsing succeeds; every successfully
PKIX-parsed key is returned whatever its type, every successful PKCS1 parse
is an RSA key and is returned, and the UnsupportedKeyType error message is
never produced (its switch guards only the PKCS1 path, which yields RSA
keys exclusively). -/
theorem c8_decode_errors_amended (key : PublicKey) :
    (key.publicKeyPem = none →
      toCryptoPublicKey key = .error (.newf msgDecodePEMFailed)) ∧
    (key.publicKeyPem = some .garbage →
      toCryptoPublicKey key = .error (.newf msgPKCS1ParseFailed)) ∧
    (∀ pk, key.publicKeyPem = some (.pkix pk) →
      toCryptoPublicKey key = .ok pk) ∧
    (∀ m, key.publicKeyPem = some (.pkcs1 m) →
      toCryptoPublicKey key = .ok ⟨.rsa, m⟩) ∧
    toCryptoPublicKey key ≠ .error (.newf msgInvalidPublicKeyType) := by
  obtain ⟨i, o, p⟩ := key
  refine ⟨?_, ?_, ?_, ?_, ?_⟩
  · intro h
    simp only at h
    subst h
    rfl
  · intro h
    simp only at h
    subst h
    rfl
  · intro pk h
    simp only at h
    subst h
    rfl
  · intro m h
    simp only at h
    subst h
    rfl
  · rcases p with _ | blob
    · intro h
      simp [toCryptoPublicKey, pemDecode, msgDecodePEMFailed,
        msgInvalidPublicKeyType] at h
    · rcases blob with pk | m | _
      · intro h
        simp [toCryptoPublicKey, pemDecode, parsePKIXPublicKey] at h
      · intro h
        simp [toCryptoPublicKey, pemDecode, parsePKIXPublicKey,
          parsePKCS1PublicKey] at h
      · intro h
        simp [toCryptoPublicKey, pemDecode, parsePKIXPublicKey,
          parsePKCS1PublicKey, msgPKCS1ParseFailed,
          msgInvalidPublicKeyType] at h

/-- Witness for C8 as amended: the failure branches evaluated at concrete
keys. -/
theorem c8_decode_errors_amended_witness :
    toCryptoPublicKey ⟨emptyIRI, emptyIRI, none⟩ =
      .error (.newf msgDecodePEMFailed) ∧
    toCryptoPublicKey ⟨emptyIRI, emptyIRI, some .garbage⟩ =
      .error (.newf msgPKCS1ParseFailed) ∧
    toCryptoPublicKey ⟨emptyIRI, emptyIRI, some (.pkcs1 3)⟩ =
      .ok ⟨.rsa, 3⟩ := by
  refine ⟨(c8_decode_errors_amended _).1 rfl,
    (c8_decode_errors_amended _).2.1 rfl,
    (c8_decode_errors_amended _).2.2.2.1 3 rfl⟩

/-!  C2. -/

def badHost : IRI := ⟨"https", "bad.example", "", ""⟩

def badRes : IRI := ⟨"https", "bad.example", "/actor", ""⟩

def nilResolver : actorResolver :=
  { baseURL := "", ignore := [badHost], c := none, st := none }

/-- C2 counterexample: a resolver with neither storage nor client configured
returns `(AnonymousActor, nil, nil)` for an IRI contained by (and distinct
from) an ignore-list entry — no Forbidden error is produced, because the
nothing-configured short-circuit sits before the ignore-list check. -/
theorem c2_counterexample :
    nilResolver.iriIsIgnored badRes = true ∧
    (badRes == badHost) = false ∧
    nilResolver.LoadActorFromKeyIRI badRes =
      ((some AnonymousActor, none, none), []) := by
  refine ⟨rfl, by decide, rfl⟩

/-- C2 as amended: provided the resolver has at least one of a local store
or a remote client configured, every IRI contained by some ignore-list
entry makes `LoadActorFromKeyIRI` fail with the Forbidden error and an
empty call trace — neither the store's `Load` nor any client call is
performed. -/
theorem c2_ignored_iri_forbidden (a : actorResolver) (iri : IRI)
    (hcfg : a.st.isSome ∨ a.c.isSome)
    (hig : a.iriIsIgnored iri = true) :
    a.LoadActorFromKeyIRI iri =
      ((some AnonymousActor, none, some (.forbidden msgActorBlocked)), []) := by
  have hne : (a.st.isNone && a.c.isNone) = false := by
    rcases hcfg with h | h
    · rcases Option.isSome_iff_exists.mp h with ⟨s, hs⟩
      simp [hs]
    · rcases Option.isSome_iff_exists.mp h with ⟨s, hs⟩
      simp [hs]
  simp [actorResolver.LoadActorFromKeyIRI, hne, hig]

def emptyStore : Store :=
  { load := fun _ => (.nil, some (.notFound msgUnableLoadBearer))
  , supportsLoadAccess := false
  , loadAccess := fun _ => (none, none) }

def blockingResolver : actorResolver :=
  { baseURL := "", ignore := [badHost], c := none, st := some emptyStore }

/-- Witness for C2 as amended: with a store configured, the blocked IRI is
rejected as Forbidden with no collaborator call. -/
theorem c2_ignored_iri_forbidden_witness :
    blockingResolver.LoadActorFromKeyIRI badRes =
      ((some AnonymousActor, none, some (.forbidden msgActorBlocked)), []) := by
  exact c2_ignored_iri_forbidden blockingResolver badRes (Or.inl rfl) rfl

/-!  C4. -/

/-- C4: a nil request, nil headers, no Signature and no Authorization
header, or an Authorization header whose scheme token is neither Bearer nor
Signature, all make `LoadActorFromRequest` return the anonymous actor with
a nil error and no collaborator call. -/
theorem c4_no_credentials_anonymous (a : actorResolver) :
    (a.LoadActorFromRequest none = ((AnonymousActor, none), [])) ∧
    (∀ req : Request, req.headers = none →
      a.LoadActorFromRequest (some req) = ((AnonymousActor, none), [])) ∧
    (∀ (req : Request) (hs : List (String × String)), req.headers = some hs →
      headerGet hs hdrSignature = "" → headerGet hs hdrAuthorization = "" →
      a.LoadActorFromRequest (some req) = ((AnonymousActor, none), [])) ∧
    (∀ (req : Request) (hs : List (String × String)), req.headers = some hs →
      headerGet hs hdrSignature = "" →
      (getAuthorization (headerGet hs hdrAuthorization)).1 ≠ "Bearer" →
      (getAuthorization (headerGet hs hdrAuthorization)).1 ≠ "Signature" →
      a.LoadActorFromRequest (some req) = ((AnonymousActor, none), [])) := by
  refine ⟨rfl, ?_, ?_, ?_⟩
  · intro req h
    simp [actorResolver.LoadActorFromRequest, h]
  · intro req hs hh h1 h2
    simp [actorResolver.LoadActorFromRequest, hh, h1, h2]
  · intro req hs hh h1 h2 h3
    by_cases hA : headerGet hs hdrAuthorization = ""
    · simp [actorResolver.LoadActorFromRequest, hh, h1, hA]
    · simp [actorResolver.LoadActorFromRequest, hh, h1, hA, h2, h3]

def reqBasicAuth : Request :=
  { headers := some [(hdrAuthorization, "Basic dXNlcjpwYXNz")]
  , sigParse := .error (.badRequest msgInitVerifierFailed)
  , bearer := none }

/-- Witness for C4: a request carrying only `Authorization: Basic ...`
authenticates as the anonymous actor without error. -/
theorem c4_no_credentials_anonymous_witness :
    nilResolver.LoadActorFromRequest (some reqBasicAuth) =
      ((AnonymousActor, none), []) := by
  exact (c4_no_credentials_anonymous nilResolver).2.2.2 reqBasicAuth
    [(hdrAuthorization, "Basic dXNlcjpwYXNz")] rfl rfl
    (by decide) (by decide)

/-!  C10. -/

/-- C10: every item loaded from local storage that coerces to an actor makes
the local-key lookup return the address of the actor's embedded `PublicKey`
field — a non-nil pointer even when the field is the zero value with an
empty PEM — so `LoadActorFromKeyIRI` returns on the local branch with no
remote call; the same holds of the headers.go `loadFromStorage`. -/
theorem c10_local_actor_short_circuits
    (k : keyLoader) (a : actorResolver) (st : Store) (iri : IRI) (act : Actor)
    (hkst : k.st = some st)
    (hast : a.st = some st)
    (hne : iri.isEmpty = false)
    (hig : k.iriIsIgnored iri = false)
    (hload : st.load iri.stripFragment = (.actor act, none)) :
    k.loadLocalKey iri =
      ((act, some act.publicKey, none), [.load iri.stripFragment]) ∧
    k.LoadActorFromKeyIRI iri =
      (some (act, some act.publicKey, none), [.load iri.stripFragment]) ∧
    a.loadFromStorage iri =
      ((some act, some act.publicKey, none), [.load iri.stripFragment]) := by
  have h1 : k.loadLocalKey iri =
      ((act, some act.publicKey, none), [.load iri.stripFragment]) := by
    simp [keyLoader.loadLocalKey, hkst, hne, stripFragment_if,
      stripFragment_ite, hload, onActorFold]
  have hkne : (k.st.isNone && k.c.isNone) = false := by
    simp [hkst]
  refine ⟨h1, ?_, ?_⟩
  · simp [keyLoader.LoadActorFromKeyIRI, hkne, hig, h1]
  · simp [actorResolver.loadFromStorage, hast, hne, stripFragment_if,
      stripFragment_ite, hload, toActor]

def iriLocal : IRI := ⟨"https", "local.example", "/me", "main"⟩

def actLocal : Actor :=
  ⟨⟨"https", "local.example", "/me", ""⟩, "Person", "me", zeroPublicKey⟩

def storeLocal : Store :=
  { load := fun _ => (.actor actLocal, none)
  , supportsLoadAccess := false
  , loadAccess := fun _ => (none, none) }

def kLocal : keyLoader :=
  { baseURL := "", ignore := [], c := none, st := some storeLocal }

def aLocal : actorResolver :=
  { baseURL := "", ignore := [], c := none, st := some storeLocal }

/-- Witness for C10: a stored actor whose embedded key is the zero value
(empty PEM) is still returned from the local branch, key pointer non-nil,
with a single storage call on the fragment-stripped IRI. -/
theorem c10_local_actor_short_circuits_witness :
    kLocal.loadLocalKey iriLocal =
      ((actLocal, some zeroPublicKey, none), [.load iriLocal.stripFragment]) ∧
    kLocal.LoadActorFromKeyIRI iriLocal =
      (some (actLocal, some zeroPublicKey, none),
        [.load iriLocal.stripFragment]) ∧
    aLocal.loadFromStorage iriLocal =
      ((some actLocal, some zeroPublicKey, none),
        [.load iriLocal.stripFragment]) := by
  exact c10_local_actor_short_circuits kLocal aLocal storeLocal iriLocal
    actLocal rfl rfl rfl rfl rfl

/-!  C5. -/

/-- C5: a remote fetch whose body parses only as a bare PublicKey document
triggers a second client call on the key's `Owner` IRI and returns the
owning actor coerced from that second response together with the key. -/
theorem c5_bare_key_owner_dereferenced
    (c : Client) (iri : IRI) (resp : HResp) (key : PublicKey)
    (it : Item) (act : Actor)
    (hget : c.ctxGet iri.toStr = (some resp, none))
    (hread : resp.readErr = none)
    (hstatus : resp.statusCode = 200 ∨ resp.statusCode = 410 ∨
      resp.statusCode = 304)
    (hbody : resp.body = .keyDoc key)
    (hown : c.ctxLoadIRI key.owner = (it, none))
    (hact : toActor it = (some act, none)) :
    LoadRemoteKey c iri =
      ((some act, some key, none),
        [.ctxGet iri.toStr, .ctxLoadIRI key.owner]) := by
  rcases hstatus with h | h | h <;>
    simp [LoadRemoteKey, hget, hread, h, hbody, hown, hact]

def iriKey5 : IRI := ⟨"https", "example.com", "/jdoe/key", ""⟩

def iriOwner5 : IRI := ⟨"https", "example.com", "/jdoe", ""⟩

def key5 : PublicKey := ⟨iriKey5, iriOwner5, some (.pkix ⟨.rsa, 7⟩)⟩

def act5 : Actor := ⟨iriOwner5, "Person", "jdoe", key5⟩

def client5 : Client :=
  { ctxGet := fun _ => (some ⟨200, none, .keyDoc key5⟩, none)
  , ctxLoadIRI := fun _ => (.actor act5, none) }

/-- Witness for C5: the key resource at /jdoe/key resolves to the owning
actor /jdoe, not to the key resource itself. -/
theorem c5_bare_key_owner_dereferenced_witness :
    LoadRemoteKey client5 iriKey5 =
      ((some act5, some key5, none),
        [.ctxGet iriKey5.toStr, .ctxLoadIRI iriOwner5]) := by
  exact c5_bare_key_owner_dereferenced client5 iriKey5
    ⟨200, none, .keyDoc key5⟩ key5 (.actor act5) act5 rfl rfl (Or.inl rfl)
    rfl rfl rfl

/-!  C7. -/

/-- C7: local storage is always queried with the fragment stripped from the
key IRI, while the remote path — both the key fetch and the IRI-as-actor
fallback fetch — uses the original IRI with its fragment intact. -/
theorem c7_fragment_stripped_locally_kept_remotely
    (a : actorResolver) (st : Store) (c : Client) (iri : IRI) (e : GoErr)
    (hst : a.st = some st) (hc : a.c = some c)
    (hne : iri.isEmpty = false)
    (hig : a.iriIsIgnored iri = false)
    (hmiss : (a.loadFromStorage iri).1.2.2 = some e) :
    (a.loadFromStorage iri).2 = [.load iri.stripFragment] ∧
    (LoadRemoteKey c iri).2.head? = some (.ctxGet iri.toStr) ∧
    (a.LoadActorFromKeyIRI iri).2 =
      .load iri.stripFragment ::
        ((LoadRemoteKey c iri).2 ++
          (match (LoadRemoteKey c iri).1 with
           | (_, some _, none) => []
           | (_, _, _) => [.ctxLoadIRI iri])) := by
  have htrace : (a.loadFromStorage iri).2 = [.load iri.stripFragment] := by
    simp only [actorResolver.loadFromStorage, hst, hne, stripFragment_if,
      stripFragment_ite, Bool.false_eq_true, if_false]
    rcases st.load iri.stripFragment with ⟨it, err⟩
    rcases err with _ | e2
    · rcases htA : toActor it with ⟨oa, oe⟩
      rcases oe with _ | e3
      · rcases oa with _ | a2 <;> simp [htA]
      · simp [htA]
    · simp
  have hhead : (LoadRemoteKey c iri).2.head? = some (.ctxGet iri.toStr) := by
    simp only [LoadRemoteKey]
    rcases c.ctxGet iri.toStr with ⟨oresp, oerr⟩
    rcases oerr with _ | e2
    · rcases oresp with _ | resp
      · simp
      · obtain ⟨sc, re, bd⟩ := resp
        rcases re with _ | e3
        · by_cases hs2 : (sc == 200 || sc == 410 || sc == 304) = true
          · simp only [hs2, if_true]
            rcases bd with a2 | k2 | _
            · simp
            · rcases hcl : c.ctxLoadIRI k2.owner with ⟨it2, oe2⟩
              rcases oe2 with _ | e4
              · rcases htA2 : toActor it2 with ⟨oa2, oe3⟩
                rcases oe3 with _ | e5 <;> simp [hcl, htA2]
              · simp [hcl]
            · simp
          · simp only [Bool.not_eq_true] at hs2
            simp [hs2]
        · simp
    · simp
  refine ⟨htrace, hhead, ?_⟩
  have hkne : (a.st.isNone && a.c.isNone) = false := by simp [hst]
  rcases hl : a.loadFromStorage iri with ⟨⟨act0, key0, err0⟩, t0⟩
  have herr0 : err0 = some e := by
    have := hmiss
    rw [hl] at this
    exact this
  have ht0 : t0 = [.load iri.stripFragment] := by
    have := htrace
    rw [hl] at this
    exact this
  subst herr0 ht0
  simp only [actorResolver.LoadActorFromKeyIRI, hkne, hig, hl, hc,
    Bool.false_eq_true, if_false]
  rcases hr : LoadRemoteKey c iri with ⟨⟨act2, key2, err2⟩, t2⟩
  rcases key2 with _ | k2
  · rcases hli : c.ctxLoadIRI iri with ⟨it3, oe3⟩
    rcases oe3 with _ | e6 <;> simp [hli]
  · rcases err2 with _ | e7
    · simp
    · rcases hli : c.ctxLoadIRI iri with ⟨it3, oe3⟩
      rcases oe3 with _ | e6 <;> simp [hli]

def iriFrag7 : IRI := ⟨"https", "remote.example", "/jdoe", "main"⟩

def key7 : PublicKey :=
  ⟨iriFrag7, iriFrag7.stripFragment, some (.pkix ⟨.rsa, 9⟩)⟩

def act7 : Actor := ⟨iriFrag7.stripFragment, "Person", "jdoe", key7⟩

def client7 : Client :=
  { ctxGet := fun _ => (some ⟨200, none, .actorDoc act7⟩, none)
  , ctxLoadIRI := fun _ => (.actor act7, none) }

def resolver7 : actorResolver :=
  { baseURL := "", ignore := [], c := some client7, st := some emptyStore }

/-- Witness for C7: a fragment-carrying key IRI is looked up locally with
the fragment stripped, and fetched remotely (on local miss) with the
fragment kept. -/
theorem c7_fragment_stripped_locally_kept_remotely_witness :
    (resolver7.loadFromStorage iriFrag7).2 =
      [.load iriFrag7.stripFragment] ∧
    (LoadRemoteKey client7 iriFrag7).2.head? =
      some (.ctxGet iriFrag7.toStr) ∧
    (resolver7.LoadActorFromKeyIRI iriFrag7).2 =
      .load iriFrag7.stripFragment ::
        ((LoadRemoteKey client7 iriFrag7).2 ++
          (match (LoadRemoteKey client7 iriFrag7).1 with
           | (_, some _, none) => []
           | (_, _, _) => [.ctxLoadIRI iriFrag7])) := by
  exact c7_fragment_stripped_locally_kept_remotely resolver7 emptyStore
    client7 iriFrag7 (.notFound msgUnableLoadBearer) rfl rfl rfl rfl rfl

/-!  C6. -/

/-- C6: a Bearer request whose token is unknown to the OAuth2 storage
(`LoadAccess` errors or yields nil access data) or whose access data has nil
`UserData` makes the bearer verifier fail — with NotFound when the data is
missing — resolving no actor, and `LoadActorFromRequest` surfaces this as an
Unauthorized-wrapped error alongside the anonymous actor. -/
theorem c6_unknown_bearer_unauthorized
    (st : Store) (tok : String) (r : Request)
    (hbearer : r.bearer = some tok)
    (hfail : (st.loadAccess tok).2.isSome ∨
      st.loadAccess tok = (none, none) ∨
      (∃ d, st.loadAccess tok = (some d, none) ∧ d.userData = none)) :
    (∃ e, oauthLoaderV.Verify ⟨st⟩ r =
      ((AnonymousActor, some e), [.loadAccess tok])) ∧
    ((st.loadAccess tok = (none, none) ∨
        (∃ d, st.loadAccess tok = (some d, none) ∧ d.userData = none)) →
      oauthLoaderV.Verify ⟨st⟩ r =
        ((AnonymousActor, some (.notFound msgUnableLoadBearer)),
          [.loadAccess tok])) ∧
    (∀ (a : actorResolver) (hs : List (String × String)),
      a.st = some st → st.supportsLoadAccess = true →
      r.headers = some hs →
      headerGet hs hdrSignature = "" →
      headerGet hs hdrAuthorization ≠ "" →
      (getAuthorization (headerGet hs hdrAuthorization)).1 = "Bearer" →
      ∃ e, a.LoadActorFromRequest (some r) =
        ((AnonymousActor,
            some (.wrapUnauthorized (some e) msgUnauthorized noChallenge)),
          [.loadAccess tok])) := by
  have hV : ∃ e, oauthLoaderV.Verify ⟨st⟩ r =
      ((AnonymousActor, some e), [.loadAccess tok]) := by
    rcases hfail with h | h | ⟨d, hla, hud⟩
    · rcases hla : st.loadAccess tok with ⟨od, oe⟩
      rcases oe with _ | e
      · rw [hla] at h
        simp at h
      · exact ⟨e, by simp [oauthLoaderV.Verify, hbearer, hla]⟩
    · exact ⟨.notFound msgUnableLoadBearer,
        by simp [oauthLoaderV.Verify, hbearer, h]⟩
    · exact ⟨.notFound msgUnableLoadBearer,
        by simp [oauthLoaderV.Verify, hbearer, hla, hud]⟩
  have hMw : ∃ e, oauthLoaderVerify st r AnonymousActor =
      (((some e, noChallenge), AnonymousActor), [.loadAccess tok]) := by
    rcases hfail with h | h | ⟨d, hla, hud⟩
    · rcases hla : st.loadAccess tok with ⟨od, oe⟩
      rcases oe with _ | e
      · rw [hla] at h
        simp at h
      · exact ⟨e, by simp [oauthLoaderVerify, hbearer, hla, noChallenge]⟩
    · exact ⟨.notFound msgUnableLoadBearer,
        by simp [oauthLoaderVerify, hbearer, h, noChallenge]⟩
    · exact ⟨.notFound msgUnableLoadBearer,
        by simp [oauthLoaderVerify, hbearer, hla, hud, noChallenge]⟩
  refine ⟨hV, ?_, ?_⟩
  · intro hmissing
    rcases hmissing with h | ⟨d, hla, hud⟩
    · simp [oauthLoaderV.Verify, hbearer, h]
    · simp [oauthLoaderV.Verify, hbearer, hla, hud]
  · intro a hs hast hsupp hh hsig hauth hB
    rcases hMw with ⟨e, he⟩
    refine ⟨e, ?_⟩
    simp only [actorResolver.LoadActorFromRequest, hh]
    have hsigb : (headerGet hs hdrSignature != "") = false := by
      simp [hsig]
    have hauthb : (headerGet hs hdrAuthorization != "") = true := by
      simp [hauth]
    simp only [hsigb, Bool.false_eq_true, if_false, hauthb, if_true]
    have hBb : ((getAuthorization (headerGet hs hdrAuthorization)).1 ==
        "Bearer") = true := by
      simp [hB]
    simp only [hBb, if_true]
    simp [actorResolver.dispatchBearer, hast, hsupp, he]

def storeNoTok : Store :=
  { load := fun _ => (.nil, none)
  , supportsLoadAccess := true
  , loadAccess := fun _ => (none, none) }

def resolver6 : actorResolver :=
  { baseURL := "", ignore := [], c := none, st := some storeNoTok }

def req6 : Request :=
  { headers := some [(hdrAuthorization, "Bearer deadbeef")]
  , sigParse := .error (.badRequest msgNoBearerToken)
  , bearer := some "deadbeef" }

/-- Witness for C6: an unknown bearer token is rejected NotFound by the
bearer verifier and surfaces from `LoadActorFromRequest` as Unauthorized
with the anonymous actor. -/
theorem c6_unknown_bearer_unauthorized_witness :
    (∃ e, oauthLoaderV.Verify ⟨storeNoTok⟩ req6 =
      ((AnonymousActor, some e), [.loadAccess "deadbeef"])) ∧
    (∃ e, resolver6.LoadActorFromRequest (some req6) =
      ((AnonymousActor,
          some (.wrapUnauthorized (some e) msgUnauthorized noChallenge)),
        [.loadAccess "deadbeef"])) := by
  have h := c6_unknown_bearer_unauthorized storeNoTok "deadbeef" req6 rfl
    (Or.inr (Or.inl rfl))
  refine ⟨h.1, h.2.2 resolver6 [(hdrAuthorization, "Bearer deadbeef")]
    rfl rfl rfl rfl (by decide) (by decide)⟩

/-!  C3. -/

/-- Whether an event is an OAuth2 `LoadAccess` call. -/
def CallEvent.isLoadAccess : CallEvent → Bool
  | .loadAccess _ => true
  | _ => false

/-- A trace that never touches the OAuth2 token storage. -/
def noLoadAccess (t : List CallEvent) : Bool :=
  t.all fun e => !e.isLoadAccess

theorem noLoadAccess_append (s t : List CallEvent) :
    noLoadAccess (s ++ t) = (noLoadAccess s && noLoadAccess t) := by
  simp [noLoadAccess]

theorem noLoadAccess_loadFromStorage (a : actorResolver) (iri : IRI) :
    noLoadAccess (a.loadFromStorage iri).2 = true := by
  rcases hst : a.st with _ | st
  · simp [actorResolver.loadFromStorage, hst, noLoadAccess]
  · simp only [actorResolver.loadFromStorage, hst]
    by_cases he : iri.isEmpty = true
    · simp [he, noLoadAccess]
    · simp only [Bool.not_eq_true] at he
      simp only [he, Bool.false_eq_true, if_false]
      rcases st.load (if iri.fragment != "" then iri.stripFragment else iri)
        with ⟨it, err⟩
      rcases err with _ | e
      · rcases htA : toActor it with ⟨oa, oe⟩
        rcases oe with _ | e2
        · rcases oa with _ | a2 <;>
            simp [htA, noLoadAccess, CallEvent.isLoadAccess]
        · simp [htA, noLoadAccess, CallEvent.isLoadAccess]
      · simp [noLoadAccess, CallEvent.isLoadAccess]

theorem noLoadAccess_LoadRemoteKey (c : Client) (iri : IRI) :
    noLoadAccess (LoadRemoteKey c iri).2 = true := by
  simp only [LoadRemoteKey]
  rcases c.ctxGet iri.toStr with ⟨oresp, oerr⟩
  rcases oerr with _ | e2
  · rcases oresp with _ | resp
    · simp [noLoadAccess, CallEvent.isLoadAccess]
    · obtain ⟨sc, re, bd⟩ := resp
      rcases re with _ | e3
      · by_cases hs2 : (sc == 200 || sc == 410 || sc == 304) = true
        · simp only [hs2, if_true]
          rcases bd with a2 | k2 | _
          · simp [noLoadAccess, CallEvent.isLoadAccess]
          · rcases hcl : c.ctxLoadIRI k2.owner with ⟨it2, oe2⟩
            rcases oe2 with _ | e4
            · rcases htA : toActor it2 with ⟨oa, oe3⟩
              rcases oe3 with _ | e5 <;>
                simp [hcl, htA, noLoadAccess, CallEvent.isLoadAccess]
            · simp [hcl, noLoadAccess, CallEvent.isLoadAccess]
          · simp [noLoadAccess, CallEvent.isLoadAccess]
        · simp only [Bool.not_eq_true] at hs2
          simp [hs2, noLoadAccess, CallEvent.isLoadAccess]
      · simp [noLoadAccess, CallEvent.isLoadAccess]
  · simp [noLoadAccess, CallEvent.isLoadAccess]

theorem noLoadAccess_single_ctxLoadIRI (i : IRI) :
    noLoadAccess [CallEvent.ctxLoadIRI i] = true := rfl

theorem noLoadAccess_LoadActorFromKeyIRI (a : actorResolver) (iri : IRI) :
    noLoadAccess (a.LoadActorFromKeyIRI iri).2 = true := by
  simp only [actorResolver.LoadActorFromKeyIRI]
  by_cases h0 : (a.st.isNone && a.c.isNone) = true
  · simp [h0, noLoadAccess]
  · simp only [Bool.not_eq_true] at h0
    simp only [h0, Bool.false_eq_true, if_false]
    by_cases hig : a.iriIsIgnored iri = true
    · simp [hig, noLoadAccess]
    · simp only [Bool.not_eq_true] at hig
      simp only [hig, Bool.false_eq_true, if_false]
      rcases hl : a.loadFromStorage iri with ⟨⟨act0, key0, err0⟩, t0⟩
      have ht0 : noLoadAccess t0 = true := by
        have := noLoadAccess_loadFromStorage a iri
        rw [hl] at this
        exact this
      rcases key0 with _ | k0
      · rcases hac : a.c with _ | c
        · simp [ht0]
        · rcases hr : LoadRemoteKey c iri with ⟨⟨act2, key2, err2⟩, t2⟩
          have ht2 : noLoadAccess t2 = true := by
            have := noLoadAccess_LoadRemoteKey c iri
            rw [hr] at this
            exact this
          rcases key2 with _ | k2
          · rcases hli : c.ctxLoadIRI iri with ⟨it3, oe3⟩
            rcases oe3 with _ | e6 <;>
              simp [hr, hli, noLoadAccess_append, ht0, ht2,
                noLoadAccess_single_ctxLoadIRI]
          · rcases err2 with _ | e7
            · simp [hr, noLoadAccess_append, ht0, ht2]
            · rcases hli : c.ctxLoadIRI iri with ⟨it3, oe3⟩
              rcases oe3 with _ | e6 <;>
                simp [hr, hli, noLoadAccess_append, ht0, ht2,
                  noLoadAccess_single_ctxLoadIRI]
      · rcases err0 with _ | e0
        · simp [ht0]
        · rcases hac : a.c with _ | c
          · simp [ht0]
          · rcases hr : LoadRemoteKey c iri with ⟨⟨act2, key2, err2⟩, t2⟩
            have ht2 : noLoadAccess t2 = true := by
              have := noLoadAccess_LoadRemoteKey c iri
              rw [hr] at this
              exact this
            rcases key2 with _ | k2
            · rcases hli : c.ctxLoadIRI iri with ⟨it3, oe3⟩
              rcases oe3 with _ | e6 <;>
                simp [hr, hli, noLoadAccess_append, ht0, ht2,
                  noLoadAccess_single_ctxLoadIRI]
            · rcases err2 with _ | e7
              · simp [hr, noLoadAccess_append, ht0, ht2]
              · rcases hli : c.ctxLoadIRI iri with ⟨it3, oe3⟩
                rcases oe3 with _ | e6 <;>
                  simp [hr, hli, noLoadAccess_append, ht0, ht2,
                    noLoadAccess_single_ctxLoadIRI]

theorem noLoadAccess_keyLoaderGetKeyRest (act : Option Actor)
    (key : Option PublicKey) (acc : Actor) (t : List CallEvent)
    (ht : noLoadAccess t = true) :
    noLoadAccess (keyLoaderGetKeyRest act key acc t).2 = true := by
  rcases act with _ | a2
  · simpa [keyLoaderGetKeyRest]
  · rcases key with _ | kk
    · simpa [keyLoaderGetKeyRest]
    · rcases hp : pemDecode kk.publicKeyPem with _ | blob
      · simpa [keyLoaderGetKeyRest, hp]
      · rcases hx : parsePKIXPublicKey blob with _ | pk <;>
          simpa [keyLoaderGetKeyRest, hp, hx]

theorem noLoadAccess_keyLoaderGetKey (a : actorResolver) (acc : Actor)
    (id : IRI) : noLoadAccess (keyLoaderGetKey a acc id).2 = true := by
  by_cases he : id.isEmpty = true
  · simp [keyLoaderGetKey, he, noLoadAccess]
  · simp only [Bool.not_eq_true] at he
    simp only [keyLoaderGetKey, he, Bool.false_eq_true, if_false]
    rcases hl : a.LoadActorFromKeyIRI id with ⟨⟨act0, key0, err0⟩, t0⟩
    have ht0 : noLoadAccess t0 = true := by
      have := noLoadAccess_LoadActorFromKeyIRI a id
      rw [hl] at this
      exact this
    rcases err0 with _ | e0
    · exact noLoadAccess_keyLoaderGetKeyRest act0 key0 acc t0 ht0
    · by_cases hnm : e0.isNotModified = true
      · simp only [hnm, Bool.not_true, Bool.false_eq_true, if_false]
        exact noLoadAccess_keyLoaderGetKeyRest act0 key0 acc t0 ht0
      · simp only [Bool.not_eq_true] at hnm
        by_cases hfb : e0.isForbidden = true <;>
          simp [hnm, hfb, ht0]

theorem noLoadAccess_mwVerifyLoop (v : SigInfo) (pk : CryptoPubKey)
    (algs : List Algorithm) :
    noLoadAccess (mwVerifyLoop v pk algs).2 = true := by
  induction algs with
  | nil => simp [mwVerifyLoop, noLoadAccess]
  | cons a rest ih =>
    simp only [mwVerifyLoop]
    rcases v.verify pk a with _ | e
    · simp [noLoadAccess, CallEvent.isLoadAccess]
    · rcases hrec : mwVerifyLoop v pk rest with ⟨r2, t2⟩
      rw [hrec] at ih
      simp only at ih ⊢
      simp [noLoadAccess, CallEvent.isLoadAccess] at ih ⊢
      exact ih

theorem noLoadAccess_verifyHTTPSignature (a : actorResolver) (r : Request)
    (acc : Actor) : noLoadAccess (verifyHTTPSignature a r acc).2 = true := by
  rcases hp : r.sigParse with e | v
  · simp [verifyHTTPSignature, hp, noLoadAccess]
  · simp only [verifyHTTPSignature, hp]
    rcases hk : keyLoaderGetKey a acc v.keyId with ⟨⟨res, acc2⟩, t⟩
    have ht : noLoadAccess t = true := by
      have := noLoadAccess_keyLoaderGetKey a acc v.keyId
      rw [hk] at this
      exact this
    rcases res with e | pk
    · simpa
    · rcases hvl : mwVerifyLoop v pk (compatibleVerifyAlgorithms pk)
        with ⟨r2, t2⟩
      have ht2 : noLoadAccess t2 = true := by
        have := noLoadAccess_mwVerifyLoop v pk (compatibleVerifyAlgorithms pk)
        rw [hvl] at this
        exact this
      simp [hvl, noLoadAccess_append, ht, ht2]

theorem noLoadAccess_dispatchSignature (a : actorResolver) (req : Request) :
    noLoadAccess (a.dispatchSignature req).2 = true := by
  simp only [actorResolver.dispatchSignature]
  rcases hv : verifyHTTPSignature a req AnonymousActor with ⟨⟨oe, accF⟩, t⟩
  have ht : noLoadAccess t = true := by
    have := noLoadAccess_verifyHTTPSignature a req AnonymousActor
    rw [hv] at this
    exact this
  rcases oe with _ | e <;> simpa

/-- The signature dispatch depends on the request only through the parsed
signature verifier. -/
theorem dispatchSignature_congr (a : actorResolver) (r1 r2 : Request)
    (h : r1.sigParse = r2.sigParse) :
    a.dispatchSignature r1 = a.dispatchSignature r2 := by
  simp only [actorResolver.dispatchSignature, verifyHTTPSignature, h]

/-- C3: with a non-empty Signature header the authenticator dispatches to
the HTTP-Signature verifier and returns its result: the OAuth2 storage is
never consulted, and any other request with the same parsed signature and a
non-empty Signature header — whatever its Authorization header or bearer
token — authenticates identically. -/
theorem c3_signature_header_precedence
    (a : actorResolver) (req : Request) (hs : List (String × String))
    (hh : req.headers = some hs)
    (hsig : headerGet hs hdrSignature ≠ "") :
    a.LoadActorFromRequest (some req) = a.dispatchSignature req ∧
    noLoadAccess (a.LoadActorFromRequest (some req)).2 = true ∧
    (∀ (req2 : Request) (hs2 : List (String × String)),
      req2.headers = some hs2 →
      req2.sigParse = req.sigParse →
      headerGet hs2 hdrSignature ≠ "" →
      a.LoadActorFromRequest (some req2) = a.LoadActorFromRequest (some req)) := by
  have hd : a.LoadActorFromRequest (some req) = a.dispatchSignature req := by
    have hsigb : (headerGet hs hdrSignature != "") = true := by
      simp [hsig]
    simp [actorResolver.LoadActorFromRequest, hh, hsigb]
  refine ⟨hd, ?_, ?_⟩
  · rw [hd]
    exact noLoadAccess_dispatchSignature a req
  · intro req2 hs2 hh2 hp2 hsig2
    have hsigb2 : (headerGet hs2 hdrSignature != "") = true := by
      simp [hsig2]
    have hd2 : a.LoadActorFromRequest (some req2) = a.dispatchSignature req2 := by
      simp [actorResolver.LoadActorFromRequest, hh2, hsigb2]
    rw [hd, hd2]
    exact dispatchSignature_congr a req2 req hp2

def sig3 : SigInfo :=
  { keyId := iri9, verify := fun _ _ => some (.unauthorized msgUnauthorized) }

def req3 : Request :=
  { headers := some [(hdrSignature, "keyId=sig"),
      (hdrAuthorization, "Bearer deadbeef")]
  , sigParse := .ok sig3
  , bearer := some "deadbeef" }

def req3NoAuth : Request :=
  { headers := some [(hdrSignature, "keyId=sig")]
  , sigParse := .ok sig3
  , bearer := none }

/-- Witness for C3: a request carrying both Signature and Authorization
headers authenticates exactly as the signature dispatch, with no OAuth2
storage access, and identically to the same request without the
Authorization header. -/
theorem c3_signature_header_precedence_witness :
    resolver6.LoadActorFromRequest (some req3) =
      resolver6.dispatchSignature req3 ∧
    noLoadAccess (resolver6.LoadActorFromRequest (some req3)).2 = true ∧
    resolver6.LoadActorFromRequest (some req3NoAuth) =
      resolver6.LoadActorFromRequest (some req3) := by
  have h := c3_signature_header_precedence resolver6 req3
    [(hdrSignature, "keyId=sig"), (hdrAuthorization, "Bearer deadbeef")]
    rfl (by decide)
  exact ⟨h.1, h.2.1, h.2.2 req3NoAuth [(hdrSignature, "keyId=sig")] rfl rfl
    (by decide)⟩

/-!  C1. -/

theorem ctxGetCount_append (s t : List CallEvent) :
    ctxGetCount (s ++ t) = ctxGetCount s + ctxGetCount t := by
  simp [ctxGetCount, List.filter_append]

theorem ctxGetCount_loadLocalKey (k : keyLoader) (iri : IRI) :
    ctxGetCount (k.loadLocalKey iri).2 = 0 := by
  rcases hst : k.st with _ | st
  · simp [keyLoader.loadLocalKey, hst, ctxGetCount]
  · simp only [keyLoader.loadLocalKey, hst]
    by_cases he : iri.isEmpty = true
    · simp [he, ctxGetCount]
    · simp only [Bool.not_eq_true] at he
      simp only [he, Bool.false_eq_true, if_false]
      rcases st.load (if iri.fragment != "" then iri.stripFragment else iri)
        with ⟨it, err⟩
      rcases err with _ | e
      · rcases hfold : onActorFold (fun _ x => (x, some x.publicKey)) it
          (AnonymousActor, none) with ⟨⟨a2, k2⟩, oe⟩
        simp [hfold, ctxGetCount]
      · simp [ctxGetCount]

theorem ctxGetCount_verifyAlgs (v : SigInfo) (pk : CryptoPubKey)
    (algs : List Algorithm) (errs : List GoErr) :
    ctxGetCount (verifyAlgs v pk algs errs).2 = 0 := by
  induction algs generalizing errs with
  | nil => simp [verifyAlgs, ctxGetCount]
  | cons a rest ih =>
    simp only [verifyAlgs]
    rcases v.verify pk a with _ | e
    · simp [ctxGetCount]
    · rcases hrec : verifyAlgs v pk rest
        (errs ++ [.annotate e (failedAlgMsg a)]) with ⟨r2, t2⟩
      have h2 := ih (errs ++ [.annotate e (failedAlgMsg a)])
      rw [hrec] at h2
      simp [hrec, ctxGetCount] at h2 ⊢
      exact h2

theorem ctxGetCount_verifyFn (v : SigInfo) (kk : PublicKey) :
    ctxGetCount (keyLoader.verifyFn v kk).2 = 0 := by
  rcases hp : toCryptoPublicKey kk with e | pk
  · simp [keyLoader.verifyFn, hp, ctxGetCount]
  · simp only [keyLoader.verifyFn, hp]
    exact ctxGetCount_verifyAlgs v pk (compatibleVerifyAlgorithms pk) []

theorem ctxGetCount_LoadRemoteKey (c : Client) (iri : IRI) :
    ctxGetCount (LoadRemoteKey c iri).2 = 1 := by
  simp only [LoadRemoteKey]
  rcases c.ctxGet iri.toStr with ⟨oresp, oerr⟩
  rcases oerr with _ | e2
  · rcases oresp with _ | resp
    · simp [ctxGetCount]
    · obtain ⟨sc, re, bd⟩ := resp
      rcases re with _ | e3
      · by_cases hs2 : (sc == 200 || sc == 410 || sc == 304) = true
        · simp only [hs2, if_true]
          rcases bd with a2 | k2 | _
          · simp [ctxGetCount]
          · rcases hcl : c.ctxLoadIRI k2.owner with ⟨it2, oe2⟩
            rcases oe2 with _ | e4
            · rcases htA : toActor it2 with ⟨oa, oe3⟩
              rcases oe3 with _ | e5 <;> simp [hcl, htA, ctxGetCount]
            · simp [hcl, ctxGetCount]
          · simp [ctxGetCount]
        · simp only [Bool.not_eq_true] at hs2
          simp [hs2, ctxGetCount]
      · simp [ctxGetCount]
  · simp [ctxGetCount]

theorem ctxGetCount_LoadRemoteKeyV (c : Client) (iri : IRI) :
    ctxGetCount (LoadRemoteKeyV c iri).2 = 1 := by
  have h := ctxGetCount_LoadRemoteKey c iri
  rcases hlr : LoadRemoteKey c iri with ⟨⟨act, key, err⟩, t⟩
  rw [hlr] at h
  simp only [LoadRemoteKeyV, hlr]
  exact h

theorem ctxGetCount_single_ctxLoadIRI (i : IRI) :
    ctxGetCount [CallEvent.ctxLoadIRI i] = 0 := rfl

theorem ctxGetCount_loadRemoteKey (k : keyLoader) (c : Client) (iri : IRI)
    (hc : k.c = some c) :
    ctxGetCount (k.loadRemoteKey iri).2 = 1 := by
  have hV := ctxGetCount_LoadRemoteKeyV c iri
  simp only [keyLoader.loadRemoteKey, hc]
  rcases hlr : LoadRemoteKeyV c iri with ⟨⟨act, key, err⟩, t⟩
  rw [hlr] at hV
  simp only at hV
  rcases key with _ | kk
  · rcases hcl : c.ctxLoadIRI iri with ⟨it, oe⟩
    rcases oe with _ | e2
    · rcases hfold : onActorFold (fun _ x => (x, some x.publicKey)) it
        (act, none) with ⟨⟨a2, k2⟩, oe2⟩
      rcases k2 with _ | kk2 <;>
        simp [hcl, hfold, ctxGetCount_append, hV,
          ctxGetCount_single_ctxLoadIRI]
    · simp [hcl, ctxGetCount_append, hV, ctxGetCount_single_ctxLoadIRI]
  · rcases err with _ | e2
    · simp [hV]
    · rcases hcl : c.ctxLoadIRI iri with ⟨it, oe⟩
      rcases oe with _ | e3
      · rcases hfold : onActorFold (fun _ x => (x, some x.publicKey)) it
          (act, some kk) with ⟨⟨a2, k2⟩, oe2⟩
        rcases k2 with _ | kk2 <;>
          simp [hcl, hfold, ctxGetCount_append, hV,
            ctxGetCount_single_ctxLoadIRI]
      · simp [hcl, ctxGetCount_append, hV, ctxGetCount_single_ctxLoadIRI]

/-- When every compatible algorithm fails, the per-algorithm loop joins
every failure, each annotated with its algorithm, and attempts each
algorithm exactly once. -/
theorem verifyAlgs_all_fail (v : SigInfo) (pk : CryptoPubKey)
    (algs : List Algorithm) (ef : Algorithm → GoErr)
    (h : ∀ alg ∈ algs, v.verify pk alg = some (ef alg)) (errs : List GoErr) :
    verifyAlgs v pk algs errs =
      (joinErrs (errs ++ algs.map fun alg =>
          .annotate (ef alg) (failedAlgMsg alg)),
        algs.map .sigVerify) := by
  induction algs generalizing errs with
  | nil => simp [verifyAlgs]
  | cons a rest ih =>
    have ha := h a (by simp)
    simp only [verifyAlgs, ha]
    rw [ih (fun alg hm => h alg (by simp [hm]))]
    simp

/-- C1: with a client configured and a parseable Signature header, the
verifier (unnamed/part_021) first attempts verification with the locally
stored key copy when one exists and returns its owner on success without
any remote fetch; when no local key exists or local verification fails it
performs exactly one fresh remote key fetch (one HTTP GET) and retries
verification once; and when the retried verification attempts at least one
algorithm and every one fails, it returns the anonymous actor together with
an error annotating the join of every per-algorithm failure reason. -/
theorem c1_local_verify_then_single_remote_retry
    (k : keyLoader) (c : Client) (r : Request) (v : SigInfo)
    (hc : k.c = some c)
    (hr : r.sigParse = .ok v) :
    (∀ kk, (k.loadLocalKey v.keyId).1.2.1 = some kk →
      (keyLoader.verifyFn v kk).1 = none →
      k.Verify r = (some ((k.loadLocalKey v.keyId).1.1, none),
        (k.loadLocalKey v.keyId).2 ++ (keyLoader.verifyFn v kk).2) ∧
      ctxGetCount (k.Verify r).2 = 0) ∧
    (((k.loadLocalKey v.keyId).1.2.1 = none ∨
      (∃ kk e1, (k.loadLocalKey v.keyId).1.2.1 = some kk ∧
        (keyLoader.verifyFn v kk).1 = some e1)) →
      ctxGetCount (k.Verify r).2 = 1 ∧
      (∀ act2 kk2 pk,
        (k.loadRemoteKey v.keyId).1 = some (act2, some kk2, none) →
        toCryptoPublicKey kk2 = .ok pk →
        ∀ ef : Algorithm → GoErr,
          (∀ alg ∈ compatibleVerifyAlgorithms pk,
            v.verify pk alg = some (ef alg)) →
          compatibleVerifyAlgorithms pk ≠ [] →
          (k.Verify r).1 = some (AnonymousActor,
            some (.annotate
              (.join ((compatibleVerifyAlgorithms pk).map fun alg =>
                .annotate (ef alg) (failedAlgMsg alg)))
              msgUnableVerifyAny)))) := by
  rcases hl : k.loadLocalKey v.keyId with ⟨⟨act1, key1, err1⟩, t1⟩
  have ht1 : ctxGetCount t1 = 0 := by
    have h0 := ctxGetCount_loadLocalKey k v.keyId
    rw [hl] at h0
    exact h0
  constructor
  · intro kk hkey hvf
    simp only at hkey
    subst hkey
    rcases hvf2 : keyLoader.verifyFn v kk with ⟨res, tv⟩
    rw [hvf2] at hvf
    simp only at hvf
    subst hvf
    have htv : ctxGetCount tv = 0 := by
      have h0 := ctxGetCount_verifyFn v kk
      rw [hvf2] at h0
      exact h0
    have hV : k.Verify r = (some (act1, none), t1 ++ tv) := by
      simp [keyLoader.Verify, hr, hl, hvf2]
    refine ⟨by simp [hV, hl, hvf2], ?_⟩
    simp [hV, ctxGetCount_append, ht1, htv]
  · intro hmiss
    rcases hrem : k.loadRemoteKey v.keyId with ⟨ores, t2⟩
    have ht2 : ctxGetCount t2 = 1 := by
      have h0 := ctxGetCount_loadRemoteKey k c v.keyId hc
      rw [hrem] at h0
      exact h0
    have hshape : ∃ tLocal, ctxGetCount tLocal = 0 ∧
        k.Verify r = (match ores with
          | none => (none, tLocal ++ t2)
          | some (_, _, some e) =>
            (some (AnonymousActor, some (.annotate e msgUnableLoadKey)),
              tLocal ++ t2)
          | some (act2, key2, none) =>
            match key2 with
            | none => (none, tLocal ++ t2)
            | some kk2 =>
              match keyLoader.verifyFn v kk2 with
              | (none, tv2) => (some (act2, none), tLocal ++ t2 ++ tv2)
              | (some e, tv2) =>
                (some (AnonymousActor,
                    some (.annotate e msgUnableVerifyAny)),
                  tLocal ++ t2 ++ tv2)) := by
      rcases hmiss with hkeyn | ⟨kk, e1, hkey, hvf⟩
      · simp only at hkeyn
        subst hkeyn
        refine ⟨t1, ht1, ?_⟩
        simp only [keyLoader.Verify, hr, hl, hrem]
        rcases ores with _ | ⟨act2, key2, err2⟩
        · simp
        · rcases err2 with _ | e
          · rcases key2 with _ | kk2
            · simp
            · rcases hvf3 : keyLoader.verifyFn v kk2 with ⟨res3, tv3⟩
              rcases res3 with _ | e3 <;> simp [hvf3]
          · simp
      · simp only at hkey
        subst hkey
        rcases hvf2 : keyLoader.verifyFn v kk with ⟨res, tv⟩
        rw [hvf2] at hvf
        simp only at hvf
        subst hvf
        have htv : ctxGetCount tv = 0 := by
          have h0 := ctxGetCount_verifyFn v kk
          rw [hvf2] at h0
          exact h0
        refine ⟨t1 ++ tv, by simp [ctxGetCount_append, ht1, htv], ?_⟩
        simp only [keyLoader.Verify, hr, hl, hrem]
        rcases ores with _ | ⟨act2, key2, err2⟩
        · simp [hvf2]
        · rcases err2 with _ | e
          · rcases key2 with _ | kk2
            · simp [hvf2]
            · rcases hvf3 : keyLoader.verifyFn v kk2 with ⟨res3, tv3⟩
              rcases res3 with _ | e3 <;> simp [hvf2, hvf3]
          · simp [hvf2]
    rcases hshape with ⟨tLocal, htL, hV⟩
    constructor
    · rw [hV]
      rcases ores with _ | ⟨act2, key2, err2⟩
      · simp [ctxGetCount_append, htL, ht2]
      · rcases err2 with _ | e
        · rcases key2 with _ | kk2
          · simp [ctxGetCount_append, htL, ht2]
          · rcases hvf3 : keyLoader.verifyFn v kk2 with ⟨res3, tv3⟩
            have htv3 : ctxGetCount tv3 = 0 := by
              have h0 := ctxGetCount_verifyFn v kk2
              rw [hvf3] at h0
              exact h0
            rcases res3 with _ | e3 <;>
              simp [hvf3, ctxGetCount_append, htL, ht2, htv3]
        · simp [ctxGetCount_append, htL, ht2]
    · intro act2 kk2 pk hremres hpk ef hef hne
      simp only at hremres
      subst hremres
      have hvfres : keyLoader.verifyFn v kk2 =
          (some (.join ((compatibleVerifyAlgorithms pk).map fun alg =>
              .annotate (ef alg) (failedAlgMsg alg))),
            (compatibleVerifyAlgorithms pk).map .sigVerify) := by
        simp only [keyLoader.verifyFn, hpk]
        rw [verifyAlgs_all_fail v pk (compatibleVerifyAlgorithms pk) ef hef []]
        have hmapne : ((compatibleVerifyAlgorithms pk).map fun alg =>
            GoErr.annotate (ef alg) (failedAlgMsg alg)) ≠ [] := by
          simp [hne]
        simp [joinErrs, List.isEmpty_iff, hmapne]
      rw [hV]
      simp [hvfres]

def iriC1 : IRI := ⟨"https", "remote.example", "/actor1", ""⟩

def keyC1 : PublicKey := ⟨iriC1, iriC1, some (.pkix ⟨.rsa, 7⟩)⟩

def actC1 : Actor := ⟨iriC1, "Person", "a1", keyC1⟩

def clientC1 : Client :=
  { ctxGet := fun _ => (some ⟨200, none, .actorDoc actC1⟩, none)
  , ctxLoadIRI := fun _ => (.actor actC1, none) }

def kC1 : keyLoader :=
  { baseURL := "", ignore := [], c := some clientC1, st := none }

def errC1 : GoErr := .unauthorized msgUnauthorized

def sigC1 : SigInfo := { keyId := iriC1, verify := fun _ _ => some errC1 }

def reqC1 : Request :=
  { headers := some [(hdrSignature, "sig")]
  , sigParse := .ok sigC1
  , bearer := none }

/-- Witness for C1: with no local key, the verifier makes exactly one remote
fetch and, with both RSA algorithms failing, returns the anonymous actor
with the join of both per-algorithm failures. -/
theorem c1_local_verify_then_single_remote_retry_witness :
    ctxGetCount (kC1.Verify reqC1).2 = 1 ∧
    (kC1.Verify reqC1).1 = some (AnonymousActor,
      some (.annotate
        (.join [.annotate errC1 (failedAlgMsg .rsaSha256),
          .annotate errC1 (failedAlgMsg .rsaSha512)])
        msgUnableVerifyAny)) := by
  have h := (c1_local_verify_then_single_remote_retry kC1 clientC1 reqC1
    sigC1 rfl rfl).2 (Or.inl rfl)
  refine ⟨h.1, ?_⟩
  have h2 := h.2 actC1 keyC1 ⟨.rsa, 7⟩ rfl rfl (fun _ => errC1)
    (fun _ _ => rfl) (by decide)
  simpa [compatibleVerifyAlgorithms] using h2

end GoApAuth
